import Mathlib

/-!
Shallow embedding of the core of `src/TikTokApi/api/video.py`
(PedroAzuos/TikTok-Api): the page-state extraction in `Video.info`
(lines 106-159), the field derivation in `Video.__extract_from_data`
(lines 274-299), the media fetching in `Video.bytes` (lines 172-272,
whole-body and streaming modes), and the URL collector
`extract_url_lists` (lines 402-425).

Python strings are modelled as `List Char`, bytes as `List Nat`,
JSON values as the inductive `Json`, Python exceptions as the error
side of `Except Err`.  External collaborators (the JSON decoder, the
HTTP transport) are modelled as explicit parameters / explicit data.
A streaming HTTP response carries the ordered list of byte chunks of
the underlying stream; following httpx semantics, `aread()` buffers
their concatenation into the response's content, and after that each
`aiter_bytes()` call is a fresh iterator over the buffered content
from the start, yielding it as a single chunk.
-/

/-- Python exceptions that the modelled code can raise.  `invalidResponse`
is `InvalidResponseException`; the others are builtin Python exceptions
(`KeyError`, `TypeError`, `AttributeError`, `json.JSONDecodeError`). -/
inductive Err where
  | invalidResponse
  | keyError
  | typeError
  | attributeError
  | decodeError
deriving DecidableEq

/-- JSON values, as produced by `json.loads`. Objects keep their key order
(Python dicts preserve insertion order); keys of a decoded JSON object are
unique, so first-match association lookup models Python dict lookup. -/
inductive Json where
  | null
  | bool (b : Bool)
  | num (n : Int)
  | str (s : String)
  | arr (xs : List Json)
  | obj (kvs : List (String × Json))

/-- First-match association-list lookup: Python `dict[key]` / `dict.get`. -/
def lookupA : List (String × Json) → String → Option Json
  | [], _ => none
  | (k, v) :: rest, key => if k == key then some v else lookupA rest key

/-- Python `d[k]` on a JSON value: `KeyError` when the key is absent from a
dict, `TypeError` when `d` is not a dict (string indices must be integers,
and similar messages for the other types). -/
def dictIndex (j : Json) (k : String) : Except Err Json :=
  match j with
  | .obj kvs =>
    match lookupA kvs k with
    | some v => .ok v
    | none => .error .keyError
  | _ => .error .typeError

/-- Python `d.get(k, dflt)` on a JSON value: `AttributeError` when `d` is
not a dict (only dicts have `.get`). -/
def dictGetD (j : Json) (k : String) (dflt : Json) : Except Err Json :=
  match j with
  | .obj kvs => .ok ((lookupA kvs k).getD dflt)
  | _ => .error .attributeError

/-- Python `d.get(k)` (default `None`) on a JSON value. -/
def dictGet (j : Json) (k : String) : Except Err (Option Json) :=
  match j with
  | .obj kvs => .ok (lookupA kvs k)
  | _ => .error .attributeError

/-- Python `x != 0` for a JSON value, as used on `statusCode`:
integers compare numerically, `False == 0` and `True == 1` in Python,
and every other JSON value is `!= 0`. -/
def pyNeZero (j : Json) : Bool :=
  match j with
  | .num n => !(n == 0)
  | .bool b => b
  | _ => true

/-- Does `needle` occur as a prefix of `hay`?  (Python `str.startswith`.) -/
def headMatches : List Char → List Char → Bool
  | _, [] => true
  | [], _ :: _ => false
  | a :: ha, b :: nb => a == b && headMatches ha nb

/-- Python `hay.find(needle)`: index of the first occurrence, `None`
standing for Python's `-1`. -/
def strFind : List Char → List Char → Option Nat
  | [], needle => if headMatches [] needle then some 0 else none
  | h :: t, needle =>
    if headMatches (h :: t) needle then some 0
    else (strFind t needle).map (· + 1)

/-- Python `hay.find(needle, start)`: first occurrence at or after `start`. -/
def strFindFrom (hay needle : List Char) (start : Nat) : Option Nat :=
  (strFind (hay.drop start) needle).map (· + start)

/-- Python `needle in hay` on strings. -/
def strContains (hay needle : List Char) : Bool :=
  (strFind hay needle).isSome

/-- Python slice `text[s:e]`. -/
def pySlice (text : List Char) (s e : Nat) : List Char :=
  (text.take e).drop s

/-- An HTTP page response: status code plus body text
(`requests.get(self.url, ...)` in `Video.info`). -/
structure RawPage where
  status_code : Nat
  text : List Char

/-- The LEGACY open marker scanned at video.py line 116. -/
def sigiMarker : List Char :=
  ("<script id=\"SIGI_STATE\" type=\"application/json\">").data

/-- The REHYDRATION open marker scanned at video.py line 134. -/
def rehydMarker : List Char :=
  ("<script id=\"__UNIVERSAL_DATA_FOR_REHYDRATION__\" type=\"application/json\">").data

/-- The close marker scanned at video.py lines 119 and 141. -/
def scriptClose : List Char := "</script>".data

/-- The LEGACY branch of `Video.info` (video.py lines 117-127), entered
with `s0` the index just past the open marker: find `</script>` from
`s0`, decode the interior with the JSON decoder `dec` (`json.loads`,
whose failure propagates as a decode error), then evaluate
`data["ItemModule"][vid]`. -/
def legacyParse (dec : List Char → Option Json) (page : RawPage)
    (vid : String) (s0 : Nat) : Except Err Json :=
  match strFindFrom page.text scriptClose s0 with
  | none => .error .invalidResponse
  | some e =>
    match dec (pySlice page.text s0 e) with
    | none => .error .decodeError
    | some data =>
      match dictIndex data "ItemModule" with
      | .error err => .error err
      | .ok m => dictIndex m vid

/-- The REHYDRATION branch of `Video.info` (video.py lines 129-159),
entered only when the LEGACY open marker is absent: find the
REHYDRATION open marker (absent means `InvalidResponseException`),
find `</script>` after it, decode the interior, then
`data.get("__DEFAULT_SCOPE__", {}).get("webapp.video-detail", {})`,
reject `statusCode != 0` (absent treated as `0`), and require
`itemInfo.itemStruct` to be present. -/
def rehydrationParse (dec : List Char → Option Json) (page : RawPage) :
    Except Err Json :=
  match strFind page.text rehydMarker with
  | none => .error .invalidResponse
  | some s =>
    match strFindFrom page.text scriptClose (s + rehydMarker.length) with
    | none => .error .invalidResponse
    | some e =>
      match dec (pySlice page.text (s + rehydMarker.length) e) with
      | none => .error .decodeError
      | some data =>
        match dictGetD data "__DEFAULT_SCOPE__" (.obj []) with
        | .error err => .error err
        | .ok ds =>
          match dictGetD ds "webapp.video-detail" (.obj []) with
          | .error err => .error err
          | .ok vd =>
            match dictGetD vd "statusCode" (.num 0) with
            | .error err => .error err
            | .ok sc =>
              if pyNeZero sc then .error .invalidResponse
              else
                match dictGetD vd "itemInfo" (.obj []) with
                | .error err => .error err
                | .ok ii =>
                  match dictGet ii "itemStruct" with
                  | .error err => .error err
                  | .ok none => .error .invalidResponse
                  | .ok (some x) => .ok x

/-- The page-state extraction inside `Video.info` (video.py lines
107-159): reject a non-200 page, then scan for the LEGACY open marker
and dispatch to the LEGACY branch when it is present, and to the
REHYDRATION branch only when it is absent.  `dec` is the `json.loads`
collaborator; `vid` is `self.id`.  (The subsequent
`__extract_from_data` normalization and cookie merging, lines 161-169,
are modelled separately.) -/
def infoExtract (dec : List Char → Option Json) (page : RawPage)
    (vid : String) : Except Err Json :=
  if page.status_code ≠ 200 then .error .invalidResponse
  else
    match strFind page.text sigiMarker with
    | some s => legacyParse dec page vid (s + sigiMarker.length)
    | none => rehydrationParse dec page

/-- Python `int(s)` on a string, simplified to optional sign plus
decimal digits: `none` models `ValueError`. -/
def digitsToNatAux (acc : Nat) : List Char → Option Nat
  | [] => some acc
  | c :: rest =>
    if c.isDigit then digitsToNatAux (acc * 10 + (c.toNat - 48)) rest
    else none

/-- Python `int(s)` for a string argument (sign and digits; anything
else raises `ValueError`, modelled as `none`). -/
def pyIntOfStr (s : String) : Option Int :=
  match s.data with
  | [] => none
  | '-' :: [] => none
  | '-' :: c :: rest => (digitsToNatAux 0 (c :: rest)).map (fun n => -(n : Int))
  | cs => (digitsToNatAux 0 cs).map (fun n => (n : Int))

/-- The statement `try: timestamp = int(timestamp) except ValueError: pass`
at video.py lines 280-283: numbers and booleans coerce, a string coerces
when it parses and is otherwise passed through unchanged (the
`ValueError` is swallowed), while `int` of a list or dict raises
`TypeError`, which the `except ValueError` clause does not catch. -/
def pyIntTry (j : Json) : Except Err Json :=
  match j with
  | .num n => .ok (.num n)
  | .bool b => .ok (.num (if b then 1 else 0))
  | .str s =>
    match pyIntOfStr s with
    | some n => .ok (.num n)
    | none => .ok (.str s)
  | .null => .error .typeError
  | .arr _ => .error .typeError
  | .obj _ => .error .typeError

/-- Python `datetime.fromtimestamp(x)` (video.py line 285): accepts a
number and raises `TypeError` on `None`, strings and containers.  The
resulting datetime is represented by the integer timestamp itself. -/
def pyFromtimestamp (j : Json) : Except Err Int :=
  match j with
  | .num n => .ok n
  | _ => .error .typeError

/-- The `id`/`createTime` portion of `Video.__extract_from_data`
(video.py lines 275-285): `self.id = data["id"]`, then
`timestamp = data.get("createTime", None)`, the guarded `int` coercion,
and then — unconditionally, outside the `is not None` guard —
`self.create_time = datetime.fromtimestamp(timestamp)`. -/
def extractCreateTime (data : Json) : Except Err Int :=
  match dictIndex data "id" with
  | .error err => .error err
  | .ok _ =>
    match dictGet data "createTime" with
    | .error err => .error err
    | .ok none => pyFromtimestamp .null
    | .ok (some ts) =>
      match pyIntTry ts with
      | .error err => .error err
      | .ok t => pyFromtimestamp t

/-- The bytes of the container signature `b'ftyp'`. -/
def ftypBytes : List Nat := [102, 116, 121, 112]

/-- Python `b'ftyp' in bs`: contiguous occurrence of the 4-byte
signature anywhere in `bs`. -/
def hasFtyp : List Nat → Bool
  | [] => false
  | b :: t => ((b :: t).take 4 == ftypBytes) || hasFtyp t

/-- The container-signature validation applied at video.py lines 224
and 263: `b'ftyp' in buf[:32]`. -/
def isValidContainer (buf : List Nat) : Bool :=
  hasFtyp (buf.take 32)

/-- A whole-body HTTP response as seen by `requests.get` in
`Video.bytes` (video.py line 260): status, the `Content-Type` header
(`none` when the header is absent; `headers.get` then defaults to the
empty string), and the body bytes. -/
structure WholeResponse where
  status_code : Nat
  contentType : Option (List Char)
  content : List Nat

/-- The substring looked for in the `Content-Type` header. -/
def videoSub : List Char := "video".data

/-- The whole-body loop of `Video.bytes` (video.py lines 257-272) over
the outcome of each candidate in order; `none` is a transport-level
exception raised by `requests.get` itself.  A candidate's body is
returned when the status is 200, the `Content-Type` contains `video`,
the content is non-empty and the signature check passes; the
`StopIteration` raised on invalid content and the
`InvalidResponseException` raised on a bad status or content type are
both caught by the per-candidate `except`, advancing to the next
candidate.  Falling off the loop returns Python `None`. -/
def bytesWhole : List (Option WholeResponse) → Option (List Nat)
  | [] => none
  | none :: rest => bytesWhole rest
  | some r :: rest =>
    if r.status_code == 200 && strContains (r.contentType.getD []) videoSub then
      if r.content.isEmpty || !(isValidContainer r.content) then bytesWhole rest
      else some r.content
    else bytesWhole rest

/-- Spec-side success predicate for one whole-body candidate, following
the claim's words: HTTP status 200, a `Content-Type` containing the
substring `video`, and a body passing the container-signature
validation. -/
def wholeSuccessSpec (r : WholeResponse) : Bool :=
  r.status_code == 200 && strContains (r.contentType.getD []) videoSub
    && isValidContainer r.content

/-- Spec-side fetch, following the claim's words: try candidates
strictly in order, return the full body of the first successful one,
discard failing or erroring candidates. -/
def firstSuccessSpec : List (Option WholeResponse) → Option (List Nat)
  | [] => none
  | none :: rest => firstSuccessSpec rest
  | some r :: rest =>
    if wholeSuccessSpec r then some r.content else firstSuccessSpec rest

/-- A streaming HTTP response as opened by `client.stream` in
`Video.bytes` (video.py line 209): status plus the ordered byte chunks
of the underlying stream. -/
structure StreamResponse where
  status_code : Nat
  chunks : List (List Nat)

/-- The values yielded over the lifetime of one `stream_bytes()`
generator (video.py lines 207-233).  `await streamedResponse.aread()`
(line 211) first buffers the entire body — the concatenation of the
underlying stream's chunks — into the response.  A non-200 status then
raises `InvalidResponseException` out of the generator.  Because the
body is buffered, each of the two separate `aiter_bytes()` calls
(lines 220 and 232) iterates the buffered content afresh from the
start, yielding it as a single chunk: the peek loop sees the whole
body as `first_chunk` (it stays `b""` when the body is empty, in which
case — as when the `first_chunk[:32]` validation fails — the generator
returns without yielding), and the later "rest of the stream" loop
re-yields the whole body a second time. -/
def streamBytesGen (r : StreamResponse) : Except Err (List (List Nat)) :=
  if r.status_code ≠ 200 then .error .invalidResponse
  else
    let content := r.chunks.flatten
    if content.isEmpty || !(isValidContainer content) then .ok []
    else .ok [content, content]

/-- The streaming loop of `Video.bytes` (video.py lines 203-254) over
the outcome of each candidate in order; `none` is a transport-level
exception.  The code advances the generator once to peek its first
yield (`gen.__anext__()`): an exception or `StopAsyncIteration` moves
on to the next candidate, and otherwise `valid_stream_generator`
re-yields the consumed first chunk followed by the rest of the
generator, which is what the caller receives.  Falling off the loop
returns Python `None`. -/
def bytesStream : List (Option StreamResponse) → Option (List (List Nat))
  | [] => none
  | none :: rest => bytesStream rest
  | some r :: rest =>
    match streamBytesGen r with
    | .error _ => bytesStream rest
    | .ok [] => bytesStream rest
    | .ok (first :: tail) => some (first :: tail)

/-- Is the first chunk the peek loop sees — after `aread()`, the whole
buffered body — absent or failing the container-signature
validation? -/
def firstChunkBad (r : StreamResponse) : Bool :=
  r.chunks.flatten.isEmpty || !(isValidContainer r.chunks.flatten)

/-- Does a streaming candidate fail?  `none` is a transport error; a
response fails on a non-200 status, an absent first chunk, or a first
chunk failing validation. -/
def streamCandidateFails : Option StreamResponse → Bool
  | none => true
  | some r => !(r.status_code == 200) || firstChunkBad r

/-- Does a whole-body candidate fail?  `none` is a transport error; a
response fails when any of the three success conditions is missing. -/
def wholeCandidateFails : Option WholeResponse → Bool
  | none => true
  | some r => !(wholeSuccessSpec r)

/-- The session object used by `Video.bytes`: its header mapping and
its cookie jar (both ordered string maps, as Python dicts). -/
structure MSession where
  headers : List (String × String)
  cookies : List (String × String)

/-- Ordered-map lookup for string maps. -/
def lookupS : List (String × String) → String → Option String
  | [], _ => none
  | (k, v) :: rest, key => if k == key then some v else lookupS rest key

/-- Python `d[k] = v` on a dict: overwrite the entry in place when the
key is present (keys of a dict are unique, so replacing the first
occurrence is exact), append at the end otherwise. -/
def setItem : List (String × String) → String → String → List (String × String)
  | [], k, v => [(k, v)]
  | (k1, v1) :: rest, k, v =>
    if k1 == k then (k, v) :: rest else (k1, v1) :: setItem rest k v

/-- The request-preparation prelude of `Video.bytes` (video.py lines
196-201): `cookies = get_session_cookies(session)` reads the cookie
jar, and `h = session.headers` aliases the session's own header dict,
so the three `h[...] = ...` assignments mutate it in place.  Returns
the session as it is left afterwards, the headers `h` used for the
requests, and the cookies read. -/
def bytesPrepare (s : MSession) :
    MSession × List (String × String) × List (String × String) :=
  let cookies := s.cookies
  let h := setItem (setItem (setItem s.headers "range" "bytes=0-")
      "accept-encoding" "identity;q=1, *;q=0")
      "referer" "https://www.tiktok.com/"
  (MSession.mk h s.cookies, h, cookies)

mutual

/-- The URL collector `extract_url_lists` (video.py lines 402-425):
on a dict, a field literally named `downloadAddr` holding a string
contributes that string, and every other value is recursed into; on a
list, every element is recursed into; every other value contributes
nothing. -/
def extract_url_lists : Json → List String
  | .obj kvs => extractUrlObj kvs
  | .arr xs => extractUrlArr xs
  | _ => []

/-- The dict loop of `extract_url_lists` (video.py lines 410-420). -/
def extractUrlObj : List (String × Json) → List String
  | [] => []
  | (k, v) :: rest =>
    (if k == "downloadAddr" then
      match v with
      | .str s => [s]
      | _ => extract_url_lists v
     else extract_url_lists v) ++ extractUrlObj rest

/-- The list loop of `extract_url_lists` (video.py lines 421-423). -/
def extractUrlArr : List Json → List String
  | [] => []
  | x :: rest => extract_url_lists x ++ extractUrlArr rest

end

mutual

/-- Spec-side collector, following the claim's words: the string
values held by fields whose key is literally `downloadAddr`, in
depth-first document traversal order, recursing into every mapping
value and every sequence element regardless of key name. -/
def downloadAddrSpec : Json → List String
  | .obj kvs => downloadAddrSpecObj kvs
  | .arr xs => downloadAddrSpecArr xs
  | _ => []

/-- Spec-side collector over the fields of a mapping. -/
def downloadAddrSpecObj : List (String × Json) → List String
  | [] => []
  | (k, v) :: rest =>
    (if k == "downloadAddr" then
      match v with
      | .str s => [s]
      | _ => []
     else []) ++ downloadAddrSpec v ++ downloadAddrSpecObj rest

/-- Spec-side collector over the elements of a sequence. -/
def downloadAddrSpecArr : List Json → List String
  | [] => []
  | x :: rest => downloadAddrSpec x ++ downloadAddrSpecArr rest

end
mutual

theorem extractUrl_eq : ∀ (j : Json), extract_url_lists j = downloadAddrSpec j
  | .null => rfl
  | .bool _ => rfl
  | .num _ => rfl
  | .str _ => rfl
  | .arr xs => by
      simp only [extract_url_lists, downloadAddrSpec]
      exact extractUrlArr_eq xs
  | .obj kvs => by
      simp only [extract_url_lists, downloadAddrSpec]
      exact extractUrlObj_eq kvs

theorem extractUrlObj_eq :
    ∀ (kvs : List (String × Json)), extractUrlObj kvs = downloadAddrSpecObj kvs
  | [] => rfl
  | (k, v) :: rest => by
      simp only [extractUrlObj, downloadAddrSpecObj]
      cases hdk : k == "downloadAddr"
      case false =>
        rw [extractUrl_eq v, extractUrlObj_eq rest]
        simp
      case true =>
        rw [extractUrlObj_eq rest]
        cases v with
        | str s => simp [downloadAddrSpec]
        | null => rw [extractUrl_eq .null]; simp [downloadAddrSpec]
        | bool b => rw [extractUrl_eq (.bool b)]; simp [downloadAddrSpec]
        | num n => rw [extractUrl_eq (.num n)]; simp [downloadAddrSpec]
        | arr xs => rw [extractUrl_eq (.arr xs)]; simp
        | obj kvs2 => rw [extractUrl_eq (.obj kvs2)]; simp

theorem extractUrlArr_eq :
    ∀ (xs : List Json), extractUrlArr xs = downloadAddrSpecArr xs
  | [] => rfl
  | x :: rest => by
      simp only [extractUrlArr, downloadAddrSpecArr]
      rw [extractUrl_eq x, extractUrlArr_eq rest]

end

/-- C8: for every JSON-shaped tree, `extract_url_lists` returns exactly
the string values held by fields whose key is literally `downloadAddr`,
in depth-first document traversal order without deduplication, recursing
into every mapping value and sequence element, and returns the empty
sequence when the tree is not a mapping or sequence.  (The embedding is
a pure function, so the input is not mutated.) -/
theorem urlCollector_matches_spec :
    (∀ j : Json, extract_url_lists j = downloadAddrSpec j)
      ∧ extract_url_lists .null = []
      ∧ (∀ b, extract_url_lists (.bool b) = [])
      ∧ (∀ n, extract_url_lists (.num n) = [])
      ∧ (∀ s, extract_url_lists (.str s) = []) :=
  ⟨extractUrl_eq, rfl, fun _ => rfl, fun _ => rfl, fun _ => rfl⟩

/-- Spec-side statement that the signature `ftyp` occurs within the
first 32 bytes of a buffer. -/
def ftypWithin32 (b : List Nat) : Prop :=
  ∃ i, i + 4 ≤ 32 ∧ (b.drop i).take 4 = ftypBytes

theorem hasFtyp_iff (L : List Nat) :
    hasFtyp L = true ↔ ∃ i, (L.drop i).take 4 = ftypBytes := by
  induction L with
  | nil =>
    simp only [hasFtyp]
    constructor
    · intro h; cases h
    · rintro ⟨i, hi⟩
      simp [List.drop_nil] at hi
      exact absurd hi (by simp [ftypBytes])
  | cons b t ih =>
    simp only [hasFtyp, Bool.or_eq_true, beq_iff_eq, ih]
    constructor
    · rintro (h | ⟨i, hi⟩)
      · exact ⟨0, by simpa using h⟩
      · exact ⟨i + 1, by simpa using hi⟩
    · rintro ⟨i, hi⟩
      cases i with
      | zero => exact Or.inl (by simpa using hi)
      | succ i => exact Or.inr ⟨i, by simpa using hi⟩
theorem take32_occurrence (b : List Nat) :
    (∃ i, ((b.take 32).drop i).take 4 = ftypBytes) ↔ ftypWithin32 b := by
  constructor
  · rintro ⟨i, hi⟩
    rw [List.drop_take, List.take_take] at hi
    have hlen := congrArg List.length hi
    simp only [List.length_take, ftypBytes, List.length_cons, List.length_nil] at hlen
    have h4 : min 4 (32 - i) = 4 := by omega
    refine ⟨i, by omega, ?_⟩
    rwa [h4] at hi
  · rintro ⟨i, hle, hi⟩
    refine ⟨i, ?_⟩
    rw [List.drop_take, List.take_take]
    have h4 : min 4 (32 - i) = 4 := by omega
    rwa [h4]

/-- C7: the container validation `b'ftyp' in buf[:32]` succeeds if and
only if the 4-byte signature occurs within the first 32 bytes of the
buffer; in particular it is false on a 10-byte all-zero buffer and true
on a 40-byte buffer with the signature at offset 4. -/
theorem isValidContainer_iff_ftypWithin32 :
    (∀ b : List Nat, isValidContainer b = true ↔ ftypWithin32 b)
      ∧ isValidContainer (List.replicate 10 0) = false
      ∧ isValidContainer
          ([0, 0, 0, 0] ++ ftypBytes ++ List.replicate 32 0) = true := by
  refine ⟨fun b => ?_, by decide, by decide⟩
  rw [isValidContainer, hasFtyp_iff]
  exact take32_occurrence b
theorem bytesStream_skip (o : Option StreamResponse)
    (l : List (Option StreamResponse))
    (h : streamCandidateFails o = true) :
    bytesStream (o :: l) = bytesStream l := by
  cases o with
  | none => rfl
  | some r =>
    simp only [bytesStream]
    by_cases hs : r.status_code = 200
    · have hbad : firstChunkBad r = true := by
        simp only [streamCandidateFails, Bool.or_eq_true, Bool.not_eq_true',
          beq_eq_false_iff_ne] at h
        rcases h with hne | hbad
        · exact absurd hs hne
        · exact hbad
      rw [streamBytesGen, if_neg (by omega)]
      rw [firstChunkBad] at hbad
      simp [hbad]
    · rw [streamBytesGen, if_pos hs]

/-- C1 refuted: in streaming mode the exposed byte-chunk sequence is
not the byte sequence of the underlying stream.  `aread()` at
video.py line 211 buffers the whole body before the two
`aiter_bytes()` loops run, so a candidate whose validated first chunk
passes the signature check exposes the buffered body twice — once
from the peek and once from the re-iterated content: for an
underlying stream with the single chunk `[102, 116, 121, 112, 9]`,
the caller receives that body as two chunks, and the exposed
concatenation differs from the underlying byte sequence (a chunk is
duplicated). -/
theorem streamFetch_duplicates_buffered_body :
    bytesStream [some ⟨200, [[102, 116, 121, 112, 9]]⟩]
      = some [[102, 116, 121, 112, 9], [102, 116, 121, 112, 9]]
    ∧ ([[102, 116, 121, 112, 9], [102, 116, 121, 112, 9]]
        : List (List Nat)).flatten
      ≠ (StreamResponse.mk 200 [[102, 116, 121, 112, 9]]).chunks.flatten :=
  ⟨by decide, by decide⟩

/-- C2: in streaming mode, a candidate whose first chunk is absent or
fails validation contributes nothing to the caller: the fetch result
over that candidate followed by any remaining candidates equals the
fetch result over the remaining candidates alone. -/
theorem streamFetch_skips_invalid_candidate (r : StreamResponse)
    (l : List (Option StreamResponse)) (h : firstChunkBad r = true) :
    bytesStream (some r :: l) = bytesStream l :=
  bytesStream_skip (some r) l (by simp [streamCandidateFails, h])

/-- Closed instance of the invalid-candidate skip theorem: a 200
response whose first chunk lacks the signature is skipped. -/
theorem streamFetch_skips_invalid_candidate_witness :
    firstChunkBad ⟨200, [[0, 1, 2]]⟩ = true
      ∧ bytesStream [some ⟨200, [[0, 1, 2]]⟩,
          some ⟨200, [[102, 116, 121, 112]]⟩]
        = bytesStream [some ⟨200, [[102, 116, 121, 112]]⟩] :=
  ⟨by decide,
    streamFetch_skips_invalid_candidate ⟨200, [[0, 1, 2]]⟩
      [some ⟨200, [[102, 116, 121, 112]]⟩] (by decide)⟩
theorem bytesWhole_eq_spec (outcomes : List (Option WholeResponse)) :
    bytesWhole outcomes = firstSuccessSpec outcomes := by
  induction outcomes with
  | nil => rfl
  | cons o rest ih =>
    cases o with
    | none => simpa only [bytesWhole, firstSuccessSpec] using ih
    | some r =>
      simp only [bytesWhole, firstSuccessSpec, wholeSuccessSpec]
      by_cases h200 : (r.status_code == 200
          && strContains (r.contentType.getD []) videoSub) = true
      · by_cases hval : isValidContainer r.content = true
        · have hne : r.content.isEmpty = false := by
            cases hcontent : r.content with
            | nil => rw [hcontent] at hval; exact absurd hval (by decide)
            | cons a t => rfl
          simp [h200, hval, hne]
        · have hv : isValidContainer r.content = false := by simpa using hval
          simp [h200, hv, ih]
      · have h2 : (r.status_code == 200
            && strContains (r.contentType.getD []) videoSub) = false := by
          simpa using h200
        simp [h2, ih]

/-- C5: in whole-body mode, candidates are tried strictly in list
order and the fetch returns the full body of the first candidate whose
response has status 200, a `Content-Type` containing `video`, and a
body passing the container validation, skipping every candidate that
fails any of those conditions or raises a transport error (the
equality with the spec-side `firstSuccessSpec` captures the order, the
short-circuit on success, and the skip on failure); the claim's
three-candidate test evaluates accordingly. -/
theorem wholeFetch_first_success :
    (∀ outcomes, bytesWhole outcomes = firstSuccessSpec outcomes)
      ∧ bytesWhole
          [some ⟨404, some ("video/mp4".data), [102, 116, 121, 112, 5]⟩,
           some ⟨200, some ("video/mp4".data), [0, 0, 0]⟩,
           some ⟨200, some ("video/mp4".data), [102, 116, 121, 112, 7]⟩]
        = some [102, 116, 121, 112, 7] :=
  ⟨bytesWhole_eq_spec, by decide⟩

/-- C6: when the candidate list is empty, or every candidate fails
(shown here for a transport error, a non-200 response and an
invalid-content response in each mode), `Video.bytes` falls off its
loop and returns Python `None` — modelled as `none` — rather than
surfacing any failure value to the caller.  There is no `NoValidMedia`
(nor any other) exception raised on exhaustion anywhere in the code. -/
theorem bytesExhausted_returns_none :
    bytesWhole [] = none
      ∧ bytesStream [] = none
      ∧ bytesWhole
          [none,
           some ⟨404, some ("video/mp4".data), [102, 116, 121, 112]⟩,
           some ⟨200, some ("video/mp4".data), [0, 0]⟩]
        = none
      ∧ bytesStream
          [none,
           some ⟨404, [[102, 116, 121, 112]]⟩,
           some ⟨200, [[0, 0]]⟩]
        = none := by
  refine ⟨rfl, rfl, by decide, by decide⟩

/-- C9: normalization of a canonical item that lacks `createTime`
raises `TypeError` instead of succeeding with the creation time unset:
`timestamp` stays `None` and `datetime.fromtimestamp(None)` — called
outside the `is not None` guard at video.py line 285 — raises. -/
theorem createTime_absent_raises_typeError :
    extractCreateTime (.obj [("id", .str "7041997751718137094")])
      = .error .typeError := rfl
theorem lookupS_setItem_self (m : List (String × String)) (k v : String) :
    lookupS (setItem m k v) k = some v := by
  induction m with
  | nil => simp [setItem, lookupS]
  | cons p m ih =>
    obtain ⟨k1, v1⟩ := p
    by_cases h : (k1 == k) = true
    · simp [setItem, h, lookupS]
    · have h2 : (k1 == k) = false := by simpa using h
      simp [setItem, h2, lookupS, ih]

theorem lookupS_setItem_other (m : List (String × String)) (k v k2 : String)
    (hne : (k == k2) = false) :
    lookupS (setItem m k v) k2 = lookupS m k2 := by
  induction m with
  | nil => simp [setItem, lookupS, hne]
  | cons p m ih =>
    obtain ⟨k1, v1⟩ := p
    by_cases h : (k1 == k) = true
    · have hk : k1 = k := by simpa using h
      subst hk
      simp [setItem, lookupS, hne]
    · have h2 : (k1 == k) = false := by simpa using h
      by_cases hh : (k1 == k2) = true
      · simp [setItem, h2, lookupS, hh]
      · have hh2 : (k1 == k2) = false := by simpa using hh
        simp [setItem, h2, lookupS, hh2, ih]

/-- C10 counterexample: building the per-request headers in
`Video.bytes` mutates the session's own header mapping (the code
aliases `h = session.headers` at video.py line 198 and assigns into
`h`), contradicting the claim that the session's header mapping is not
modified: starting from a session with empty headers and an empty
cookie jar, the session's headers after the prelude are no longer
empty. -/
theorem bytesPrepare_mutates_session_headers :
    (bytesPrepare ⟨[], []⟩).1.headers ≠ ([] : List (String × String)) := by
  decide

/-- C10 amended: during the `Video.bytes` prelude the cookie jar is
read but not mutated, while the per-request header construction
mutates the session's own header mapping in place: afterwards the
session's headers are the very mapping used for the requests, with
`range`, `accept-encoding` and `referer` set and every other key
unchanged. -/
theorem bytesPrepare_frame (s : MSession) (k : String)
    (h1 : k ≠ "range") (h2 : k ≠ "accept-encoding") (h3 : k ≠ "referer") :
    lookupS (bytesPrepare s).1.headers k = lookupS s.headers k
      ∧ lookupS (bytesPrepare s).1.headers "range" = some "bytes=0-"
      ∧ lookupS (bytesPrepare s).1.headers "accept-encoding"
          = some "identity;q=1, *;q=0"
      ∧ lookupS (bytesPrepare s).1.headers "referer"
          = some "https://www.tiktok.com/"
      ∧ (bytesPrepare s).1.headers = (bytesPrepare s).2.1
      ∧ (bytesPrepare s).1.cookies = s.cookies
      ∧ (bytesPrepare s).2.2 = s.cookies := by
  refine ⟨?_, ?_, ?_, ?_, rfl, rfl, rfl⟩
  · show lookupS (setItem (setItem (setItem s.headers "range" "bytes=0-")
      "accept-encoding" "identity;q=1, *;q=0")
      "referer" "https://www.tiktok.com/") k = lookupS s.headers k
    rw [lookupS_setItem_other _ _ _ _ (beq_eq_false_iff_ne.mpr (Ne.symm h3)),
      lookupS_setItem_other _ _ _ _ (beq_eq_false_iff_ne.mpr (Ne.symm h2)),
      lookupS_setItem_other _ _ _ _ (beq_eq_false_iff_ne.mpr (Ne.symm h1))]
  · show lookupS (setItem (setItem (setItem s.headers "range" "bytes=0-")
      "accept-encoding" "identity;q=1, *;q=0")
      "referer" "https://www.tiktok.com/") "range" = some "bytes=0-"
    rw [lookupS_setItem_other _ _ _ _ (by decide),
      lookupS_setItem_other _ _ _ _ (by decide),
      lookupS_setItem_self]
  · show lookupS (setItem (setItem (setItem s.headers "range" "bytes=0-")
      "accept-encoding" "identity;q=1, *;q=0")
      "referer" "https://www.tiktok.com/") "accept-encoding"
      = some "identity;q=1, *;q=0"
    rw [lookupS_setItem_other _ _ _ _ (by decide),
      lookupS_setItem_self]
  · show lookupS (setItem (setItem (setItem s.headers "range" "bytes=0-")
      "accept-encoding" "identity;q=1, *;q=0")
      "referer" "https://www.tiktok.com/") "referer"
      = some "https://www.tiktok.com/"
    rw [lookupS_setItem_self]

/-- Closed instance of the amended frame theorem, at a session with one
unrelated header and one cookie. -/
theorem bytesPrepare_frame_witness :
    ("user-agent" : String) ≠ "range"
      ∧ lookupS (bytesPrepare ⟨[("user-agent", "ua")], [("sid", "1")]⟩).1.headers
          "user-agent"
        = lookupS [("user-agent", "ua")] "user-agent"
      ∧ lookupS (bytesPrepare ⟨[("user-agent", "ua")], [("sid", "1")]⟩).1.headers
          "range" = some "bytes=0-"
      ∧ (bytesPrepare ⟨[("user-agent", "ua")], [("sid", "1")]⟩).1.cookies
          = [("sid", "1")] :=
  ⟨by decide,
    (bytesPrepare_frame ⟨[("user-agent", "ua")], [("sid", "1")]⟩ "user-agent"
      (by decide) (by decide) (by decide)).1,
    (bytesPrepare_frame ⟨[("user-agent", "ua")], [("sid", "1")]⟩ "user-agent"
      (by decide) (by decide) (by decide)).2.1,
    (bytesPrepare_frame ⟨[("user-agent", "ua")], [("sid", "1")]⟩ "user-agent"
      (by decide) (by decide) (by decide)).2.2.2.2.2.1⟩
/-- C3: on a 200-status page containing the LEGACY open marker, a
matching close marker, decodable interior JSON, and an entry
`ItemModule[vid] = x`, the extraction returns `x` unchanged; moreover,
whenever the LEGACY open marker is present the whole extraction equals
the LEGACY branch `legacyParse`, whose definition never scans the
REHYDRATION marker — the REHYDRATION branch is dispatched to only when
the LEGACY open marker is absent. -/
theorem legacy_extract_returns_item
    (dec : List Char → Option Json) (page : RawPage) (vid : String)
    (s e : Nat) (j m x : Json)
    (h200 : page.status_code = 200)
    (hs : strFind page.text sigiMarker = some s)
    (he : strFindFrom page.text scriptClose (s + sigiMarker.length) = some e)
    (hdec : dec (pySlice page.text (s + sigiMarker.length) e) = some j)
    (hm : dictIndex j "ItemModule" = .ok m)
    (hx : dictIndex m vid = .ok x) :
    infoExtract dec page vid = .ok x
      ∧ infoExtract dec page vid
          = legacyParse dec page vid (s + sigiMarker.length) := by
  have hbranch : infoExtract dec page vid
      = legacyParse dec page vid (s + sigiMarker.length) := by
    simp [infoExtract, h200, hs]
  refine ⟨?_, hbranch⟩
  rw [hbranch]
  simp [legacyParse, he, hdec, hm, hx]

/-- Closed instance of the LEGACY extraction theorem: a concrete page
whose body is the LEGACY marker, one interior character and the close
marker, with a decoder returning an `ItemModule` holding the item. -/
theorem legacy_extract_returns_item_witness :
    infoExtract
        (fun _ => some (.obj [("ItemModule", .obj [("v1", .str "ITEM")])]))
        ⟨200, sigiMarker ++ 'J' :: scriptClose⟩ "v1"
      = .ok (.str "ITEM") :=
  (legacy_extract_returns_item
    (fun _ => some (.obj [("ItemModule", .obj [("v1", .str "ITEM")])]))
    ⟨200, sigiMarker ++ 'J' :: scriptClose⟩ "v1"
    0 (sigiMarker.length + 1)
    (.obj [("ItemModule", .obj [("v1", .str "ITEM")])])
    (.obj [("v1", .str "ITEM")]) (.str "ITEM")
    rfl (by decide) (by decide) rfl rfl rfl).1

